import Mathlib

/-!
Verification development for the Bulk-Mailer background send pipeline
(`app.py`, function `send_emails_background` together with the module-level
rate-limiting globals).  The Python source is embedded shallowly:

* the module import list (source lines 1–16) is embedded as a name table,
  because two names that the pipeline code uses — `timedelta` and `socket` —
  are never imported, and the resulting `NameError`s determine the control
  flow of every job that reaches the send loop;
* CSV parsing (lines 180–217), the rate-limit critical section (lines
  279–328), the per-recipient send handlers (lines 331–406), the setup
  exception dispatch (lines 411–435) and the `finally` finalization
  (lines 437–476) are each embedded as pure functions;
* one whole-job run is `runJob`, producing the ordered trace of database
  writes and transport actions; the SMTP server, the file system and the
  per-recipient send results are an explicit environment (`Env`).

Interpolated run-time details that no property depends on (file paths,
server-provided error texts inside f-strings, the formatted resume
timestamp of the pause message) are abstracted to fixed or parameterized
strings; every status string that a property does depend on is literal.
-/

namespace BulkMailer

/-- Names bound at module scope of `app.py`: the imports of lines 1–16, the
module globals of lines 18–33 and 104–138, and the module-level function and
route definitions.  Line 9 is `from datetime import datetime`, so `timedelta`
is never bound, and the `socket` module is never imported (only `smtplib`,
`ssl`, … are). -/
def moduleImports : List String :=
  ["os", "csv", "smtplib", "ssl", "threading", "uuid", "sqlite3", "time",
   "datetime", "MIMEMultipart", "MIMEText", "Flask", "request",
   "render_template", "redirect", "url_for", "flash", "g",
   "secure_filename", "Template",
   "hourly_sent_count", "current_hour_start_time", "rate_limit_lock",
   "SMTP_HOURLY_LIMIT", "UPLOAD_FOLDER", "ALLOWED_EXTENSIONS_CSV",
   "ALLOWED_EXTENSIONS_HTML", "DATABASE", "app", "db_path",
   "schema_content", "get_db", "close_connection", "init_db",
   "allowed_file", "send_emails_background", "index", "dashboard",
   "job_failures"]

/-- Python name resolution at module scope: a name evaluates successfully
iff the module binds it. -/
def moduleBinds (n : String) : Bool := moduleImports.contains n

/-- The Python exceptions that can reach `send_emails_background`'s
outer `try`.  `NameError` carries the unresolved name; the SMTP/socket/SSL
constructors carry the server- or OS-provided detail text. -/
inductive PyExc
  | NameError (missing : String)
  | SMTPAuthenticationError
  | SMTPConnectError (detail : String)
  | SMTPServerDisconnected (detail : String)
  | GaiError (detail : String)
  | SocketTimeout (detail : String)
  | SSLError (detail : String)
  | SMTPException (ename detail : String)
  | OtherError (ename detail : String)
  deriving DecidableEq, Repr

/-- One CSV data row, already projected onto the two matched columns:
`row.get(email_col, '')` and `row.get(first_name_col, '')`, not yet
trimmed (source lines 197–199). -/
structure CsvRow where
  email : String
  firstName : String
  deriving DecidableEq, Repr

/-- A validated recipient as appended at source lines 202–205. -/
structure Recipient where
  email : String
  firstName : String
  deriving DecidableEq, Repr

/-- Python's `str.lower()` on the character list of a string (the headers
the code compares are ASCII). -/
def lowerAscii (s : String) : String :=
  String.mk (s.data.map Char.toLower)

/-- Python's `str.strip()`: drop leading and trailing whitespace. -/
def pyStrip (s : String) : String :=
  String.mk
    (((s.data.dropWhile Char.isWhitespace).reverse.dropWhile
        Char.isWhitespace).reverse)

/-- Line 201: `if email_addr and '@' in email_addr` — the (already stripped)
email must be non-empty and contain an `@`. -/
def validRecipientEmail (e : String) : Bool :=
  !e.data.isEmpty && e.data.contains '@'

/-- Lines 186–188: case-insensitive check that the header has both a
`firstname` and an `email` column. -/
def hasColumns (fns : List String) : Bool :=
  (fns.map lowerAscii).contains "firstname" &&
    (fns.map lowerAscii).contains "email"

/-- Lines 197–207: per row, strip both fields; keep the row iff the stripped
email is non-empty and contains `@`; appended in input row order. -/
def parseRecipients : List CsvRow → List Recipient
  | [] => []
  | row :: rest =>
    let e := pyStrip row.email
    let f := pyStrip row.firstName
    if validRecipientEmail e then
      Recipient.mk e f :: parseRecipients rest
    else
      parseRecipients rest

/-- The shared rate-limit state `(hourly_sent_count,
current_hour_start_time)` of lines 19–20.  Time is in seconds. -/
structure RateWindow where
  count : Nat
  start : Nat
  deriving DecidableEq, Repr

/-- Line 22. -/
def SMTP_HOURLY_LIMIT : Nat := 300

/-- `timedelta(hours=1)` in seconds. -/
def hourSeconds : Nat := 3600

/-- Result of one pass through the rate-limit critical section: the code
either `break`s out of the polling loop (granted — note the counter is NOT
incremented here) or stays waiting until the window expires (denied,
carrying the approximate resume time shown in the pause status). -/
inductive RateDecision
  | granted (w : RateWindow)
  | denied (resumeAt : Nat) (w : RateWindow)
  deriving DecidableEq, Repr

/-- One execution of the `with rate_limit_lock:` body, lines 281–320: first
the window-reset check `datetime.now() >= current_hour_start_time +
timedelta(hours=1)` — whose evaluation requires resolving the name
`timedelta`, which the module does not bind, so it raises
`NameError('timedelta')` — then the limit comparison.  The intended logic is
kept under the name-resolution guard exactly as written in the source. -/
def rateLimitCheck (now : Nat) (w : RateWindow) :
    Except PyExc RateDecision :=
  if moduleBinds "timedelta" then
    let w2 := if w.start + hourSeconds ≤ now then RateWindow.mk 0 now else w
    if SMTP_HOURLY_LIMIT ≤ w2.count then
      Except.ok (RateDecision.denied (w2.start + hourSeconds) w2)
    else
      Except.ok (RateDecision.granted w2)
  else
    Except.error (PyExc.NameError "timedelta")

/-- What the environment (SMTP server / template engine) does for one
recipient's render-and-send attempt, lines 341–366:
`success` — `sendmail` returns; `disconnected` — it raises
`SMTPServerDisconnected`; `smtpError` — another `smtplib.SMTPException`
(e.g. a per-recipient rejection), carrying `str(e)`; `renderError` — a
non-SMTP exception (e.g. Jinja rendering), carrying `str(e)`. -/
inductive SendOutcome
  | success
  | disconnected
  | smtpError (detail : String)
  | renderError (detail : String)
  deriving DecidableEq, Repr

/-- One observable action of a job run: database writes of the `jobs` row
(status / counters / timestamps), inserts into `failed_emails`, and the
transport/file actions the spec's properties mention. -/
inductive Ev
  | dbStart (status : String)
  | dbStatusEnd (status : String)
  | dbStatus (status : String)
  | dbTotal (total : Nat)
  | dbSent (sent : Nat)
  | dbFailed (failed : Nat)
  | dbFailedStatus (failed : Nat) (status : String)
  | dbFailure (email err : String)
  | dbFinal (status : String) (sent failed : Nat)
  | readTemplate
  | connect
  | send (email : String)
  deriving DecidableEq, Repr

/-- The loop-local mutable state: `sent_count`, `failed_count`, the shared
rate window, and `connection_error`. -/
structure LoopSt where
  sent : Nat
  failed : Nat
  window : RateWindow
  connErr : Option String
  deriving Repr

/-- Whether an iteration falls through to the next recipient or `break`s
out of the loop, together with the writes it performed. -/
inductive StepRes
  | next (st : LoopSt) (evs : List Ev)
  | abort (st : LoopSt) (evs : List Ev)

/-- `connection_error` as set by the mid-send disconnect handler, line 384. -/
def midSendDisconnectDetail : String :=
  "Server disconnected unexpectedly (mid-send). Might be rate limited or timed out."

/-- The body of the send loop after the rate-limit preamble, lines 331–406,
for one recipient, given the attempt's outcome.
On success: `sent_count += 1`, persist it, then `hourly_sent_count += 1`
under the lock (lines 353–362).  On `SMTPServerDisconnected`: `failed_count
+= 1`, insert one failure row, persist `failed_count` with status
`Error: Server Disconnected`, set `connection_error`, `break` (lines
369–385).  On any other `SMTPException` or any other exception:
`failed_count += 1`, insert one failure row, persist `failed_count`,
continue (lines 387–406). -/
def loopIteration (email : String) (o : SendOutcome) (st : LoopSt) :
    StepRes :=
  match o with
  | SendOutcome.success =>
    StepRes.next
      { st with
        sent := st.sent + 1
        window := { st.window with count := st.window.count + 1 } }
      [Ev.send email, Ev.dbSent (st.sent + 1)]
  | SendOutcome.disconnected =>
    StepRes.abort
      { st with failed := st.failed + 1, connErr := some midSendDisconnectDetail }
      [Ev.send email,
       Ev.dbFailure email "SMTPServerDisconnected (mid-send)",
       Ev.dbFailedStatus (st.failed + 1) "Error: Server Disconnected"]
  | SendOutcome.smtpError d =>
    StepRes.next { st with failed := st.failed + 1 }
      [Ev.send email, Ev.dbFailure email d, Ev.dbFailed (st.failed + 1)]
  | SendOutcome.renderError d =>
    StepRes.next { st with failed := st.failed + 1 }
      [Ev.dbFailure email d, Ev.dbFailed (st.failed + 1)]

/-- The state after an iteration, whichever way it exited. -/
def stepState : StepRes → LoopSt
  | StepRes.next st _ => st
  | StepRes.abort st _ => st

/-- The writes of an iteration. -/
def stepEvs : StepRes → List Ev
  | StepRes.next _ evs => evs
  | StepRes.abort _ evs => evs

def isSuccess : SendOutcome → Bool
  | SendOutcome.success => true
  | _ => false

/-- Recognizes an insert into `failed_emails`. -/
def isFailureInsert : Ev → Bool
  | Ev.dbFailure _ _ => true
  | _ => false

/-- Display name of an exception class, used by the generic setup handler's
message (line 434). -/
def excName : PyExc → String
  | PyExc.NameError _ => "NameError"
  | PyExc.SMTPAuthenticationError => "SMTPAuthenticationError"
  | PyExc.SMTPConnectError _ => "SMTPConnectError"
  | PyExc.SMTPServerDisconnected _ => "SMTPServerDisconnected"
  | PyExc.GaiError _ => "gaierror"
  | PyExc.SocketTimeout _ => "timeout"
  | PyExc.SSLError _ => "SSLError"
  | PyExc.SMTPException n _ => n
  | PyExc.OtherError n _ => n

/-- The `except` ladder of the outer `try`, lines 411–435, applied to the
exception that escaped setup or the loop.  Clauses are tried in source
order.  The fourth clause is `except socket.gaierror`: evaluating it
requires resolving the name `socket`, which the module does not bind, so
for any exception not matched by the first three clauses Python raises
`NameError('socket')` and no clause runs.  The remaining clauses are kept
under the name-resolution guard exactly as written. -/
def dispatchSetup : PyExc → Except PyExc String
  | PyExc.SMTPAuthenticationError =>
    Except.ok "Failed: SMTP Authentication Error. Check email/password/app password."
  | PyExc.SMTPConnectError d =>
    Except.ok ("Failed: Could not connect to SMTP server. Check server address/port. Detail: " ++ d)
  | PyExc.SMTPServerDisconnected d =>
    Except.ok ("Failed: SMTP server disconnected unexpectedly during setup. Detail: " ++ d)
  | e =>
    if moduleBinds "socket" then
      match e with
      | PyExc.GaiError d =>
        Except.ok ("Failed: SMTP server address not found (DNS lookup failed). Check server name. Detail: " ++ d)
      | PyExc.SocketTimeout d =>
        Except.ok ("Failed: Connection to SMTP server timed out (30s). Detail: " ++ d)
      | PyExc.SSLError d =>
        Except.ok ("Failed: SSL Error during connection/TLS. Check port/SSL/TLS settings. Detail: " ++ d)
      | PyExc.SMTPException n d =>
        Except.ok ("Failed: SMTP Error during setup - " ++ n ++ ": " ++ d)
      | e2 =>
        Except.ok ("Failed: Unexpected Error during setup - " ++ excName e2)
    else
      Except.error (PyExc.NameError "socket")

/-- The `finally` block's status and count computation, lines 439–464,
as a function of `connection_error`, `sent_count`, `failed_count` and
`total_emails`; returns the persisted `(status, sent_count, failed_count)`.
If `connection_error` is set, counts are overwritten: `failed_count =
total_emails`, `sent_count = 0` (lines 443–446); the
`elif connection_error and connection_error.startswith("Error: Server
Disconnected")` branch of lines 448–450 is unreachable (the `if` above it
already matched, and the value set at line 384 has a different prefix), so
it is not a case here.  Otherwise the status is chosen by the chain of
lines 452–464 and the counts are kept. -/
def finalizeJob (connErr : Option String) (sent failed total : Nat) :
    String × Nat × Nat :=
  match connErr with
  | some ce => (ce, 0, total)
  | none =>
    (if failed = 0 ∧ sent = total then "Completed"
     else if 0 < failed ∧ 0 < sent then "Partial Failure"
     else if failed = total ∧ sent = 0 then "Failed: All emails"
     else if sent = 0 ∧ failed = 0 ∧ 0 < total then
       "Failed: Unknown (No emails sent or failed)"
     else if total = 0 then "Completed (No recipients)"
     else "Completed with errors (check counts)",
     sent, failed)

/-- The single unconditional final write of lines 471–473: status, both
counters and the end timestamp. -/
def loopFinalize (connErr : Option String) (sent failed total : Nat) :
    List Ev :=
  [Ev.dbFinal (finalizeJob connErr sent failed total).1
    (finalizeJob connErr sent failed total).2.1
    (finalizeJob connErr sent failed total).2.2]

/-- How the send loop itself ends: it runs off the end of the recipient
list or `break`s (`normal`), an exception escapes to the setup `except`
ladder (`raised`), or the job is parked in the 30-second re-polling wait of
lines 324–326 (`blocked`; time does not advance in this model, so a denial
is represented as blocking — unreachable anyway, because the check raises
before it can deny). -/
inductive LoopExit
  | normal
  | raised (e : PyExc)
  | blocked

/-- Pause status written when the hourly limit is hit, line 300 (the
formatted resume timestamp is abstracted away). -/
def pausedStatusMsg : String := "Paused - Hourly Limit (300/hr)"

/-- The send loop of lines 276–408: for each recipient, first the
rate-limit critical section (which raises `NameError('timedelta')` — see
`rateLimitCheck`), then, were a slot granted, the render-and-send body
`loopIteration` driven by the environment's outcome for that recipient. -/
def sendLoop (out : Nat → SendOutcome) :
    List Recipient → Nat → Nat → LoopSt → LoopSt × List Ev × LoopExit
  | [], _, _, st => (st, [], LoopExit.normal)
  | r :: rest, i, now, st =>
    match rateLimitCheck now st.window with
    | Except.error e => (st, [], LoopExit.raised e)
    | Except.ok (RateDecision.denied _ w2) =>
      ({ st with window := w2 }, [Ev.dbStatus pausedStatusMsg], LoopExit.blocked)
    | Except.ok (RateDecision.granted w2) =>
      match loopIteration r.email (out i) { st with window := w2 } with
      | StepRes.next st2 evs =>
        match sendLoop out rest (i + 1) now st2 with
        | (st3, evs3, ex) => (st3, evs ++ evs3, ex)
      | StepRes.abort st2 evs => (st2, evs, LoopExit.normal)

/-- The loop body (lines 331–406) folded over a list of recipients and
outcomes, without the rate-limit preamble — the counterfactual loop used to
evaluate the mid-send disconnect finalization (the preamble raises before
any iteration can run in the actual code, see `rateLimitCheck`). -/
def runLoopBody : List (String × SendOutcome) → LoopSt → LoopSt × List Ev
  | [], st => (st, [])
  | (email, o) :: rest, st =>
    match loopIteration email o st with
    | StepRes.next st2 evs =>
      match runLoopBody rest st2 with
      | (st3, evs3) => (st3, evs ++ evs3)
    | StepRes.abort st2 evs => (st2, evs)

/-- Result of opening and reading the CSV, lines 181–209: the header field
names and the projected data rows, or `FileNotFoundError`, or another
reading exception (name and detail). -/
inductive CsvRead
  | ok (fieldnames : List String) (rows : List CsvRow)
  | fileNotFound
  | readError (ename edetail : String)
  deriving Repr

/-- Result of reading and compiling the HTML template, lines 231–242. -/
inductive HtmlResult
  | ok
  | fileNotFound
  | readError (ename edetail : String)
  deriving Repr

/-- The environment of one job run: what the file system yields for the two
uploads, whether SMTP connect+login succeeds (or which exception it
raises), the wall clock and shared rate window at loop entry, and what the
server would do for the i-th send attempt. -/
structure Env where
  csv : CsvRead
  html : HtmlResult
  smtpSetup : Except PyExc Unit
  now : Nat
  window : RateWindow
  smtpBehavior : Nat → SendOutcome

/-- Runs the send loop and the `finally` finalization, lines 276–473, for a
job that got past connect+login.  If an exception escapes the loop it goes
through the `except` ladder: a matching clause sets `connection_error`, a
non-matching one leaves it as the loop left it (the `finally` still runs
and persists). -/
def loopRunAndFinalize (env : Env) (total : Nat)
    (recipients : List Recipient) : List Ev :=
  match sendLoop env.smtpBehavior recipients 0 env.now
      { sent := 0, failed := 0, window := env.window, connErr := none } with
  | (st, evs, LoopExit.raised e) =>
    evs ++ (match dispatchSetup e with
            | Except.ok ce => loopFinalize (some ce) st.sent st.failed total
            | Except.error _ => loopFinalize st.connErr st.sent st.failed total)
  | (st, evs, LoopExit.normal) =>
    evs ++ loopFinalize st.connErr st.sent st.failed total
  | (_, evs, LoopExit.blocked) => evs

/-- One whole run of `send_emails_background`, lines 147–499, as the
ordered trace of its observable actions.  Status strings are the source's
literals (interpolated file paths and exception details abstracted). -/
def runJob (env : Env) : List Ev :=
  Ev.dbStart "Running" ::
    match env.csv with
    | CsvRead.fileNotFound => [Ev.dbStatusEnd "Failed: CSV file not found"]
    | CsvRead.readError en ed =>
      [Ev.dbStatusEnd ("Failed: Unexpected error reading CSV - " ++ en ++ ": " ++ ed)]
    | CsvRead.ok fns rows =>
      if hasColumns fns then
        Ev.dbTotal (parseRecipients rows).length ::
          (if (parseRecipients rows).length = 0 then
            [Ev.dbStatusEnd "Completed (No valid recipients found)"]
          else
            Ev.readTemplate ::
              match env.html with
              | HtmlResult.fileNotFound =>
                [Ev.dbStatusEnd "Failed: HTML template not found"]
              | HtmlResult.readError en ed =>
                [Ev.dbStatusEnd ("Failed: Error reading HTML - " ++ en ++ ": " ++ ed)]
              | HtmlResult.ok =>
                Ev.connect ::
                  match env.smtpSetup with
                  | Except.error e =>
                    (match dispatchSetup e with
                     | Except.ok ce =>
                       loopFinalize (some ce) 0 0 (parseRecipients rows).length
                     | Except.error _ =>
                       loopFinalize none 0 0 (parseRecipients rows).length)
                  | Except.ok _ =>
                    loopRunAndFinalize env (parseRecipients rows).length
                      (parseRecipients rows))
      else
        [Ev.dbStatusEnd "Failed: Error reading CSV - CSV must contain FirstName and Email columns (case-insensitive)."]

/-- Effect of one write on the last-persisted `(sent_count, failed_count)`
pair of the job row. -/
def applyEv (c : Nat × Nat) : Ev → Nat × Nat
  | Ev.dbSent n => (n, c.2)
  | Ev.dbFailed n => (c.1, n)
  | Ev.dbFailedStatus n _ => (c.1, n)
  | Ev.dbFinal _ s f => (s, f)
  | _ => c

/-- The persisted counters never decrease along the trace, starting from
the schema defaults `sent_count = 0`, `failed_count = 0`. -/
def countsMonotone : Nat × Nat → List Ev → Prop
  | _, [] => True
  | c, ev :: rest =>
    (c.1 ≤ (applyEv c ev).1 ∧ c.2 ≤ (applyEv c ev).2) ∧
      countsMonotone (applyEv c ev) rest

/-- Whether any message was handed to `sendmail`. -/
def hasSend (evs : List Ev) : Bool :=
  evs.any fun ev => match ev with | Ev.send _ => true | _ => false

/-- Whether the template file was opened. -/
def hasTemplateRead (evs : List Ev) : Bool :=
  evs.any fun ev => match ev with | Ev.readTemplate => true | _ => false

/-- Whether an SMTP connection was attempted. -/
def hasConnect (evs : List Ev) : Bool :=
  evs.any fun ev => match ev with | Ev.connect => true | _ => false

end BulkMailer

namespace BulkMailer

/-! ### Basic facts about the embedded name table and control flow -/

theorem timedelta_unbound : moduleBinds "timedelta" = false := by decide

theorem socket_unbound : moduleBinds "socket" = false := by decide

theorem rateLimitCheck_raises (now : Nat) (w : RateWindow) :
    rateLimitCheck now w = Except.error (PyExc.NameError "timedelta") := by
  simp [rateLimitCheck, timedelta_unbound]

theorem dispatchSetup_nameError (n : String) :
    dispatchSetup (PyExc.NameError n) = Except.error (PyExc.NameError "socket") := by
  simp [dispatchSetup, socket_unbound]

end BulkMailer

namespace BulkMailer

/-! ### Claim theorems -/

/-- Claim C4: the spec says every rate-limit reservation attempt, inside the
critical section, first resets an expired window, then grants (incrementing
the count) or denies with the window expiry.  In the code, the very first
statement of the critical section evaluates `current_hour_start_time +
timedelta(hours=1)` and the module never binds `timedelta`, so every
reservation attempt raises `NameError` instead: nothing is reset, granted
or denied. -/
theorem claim4_reservation_raises_name_error (now : Nat) (w : RateWindow) :
    rateLimitCheck now w = Except.error (PyExc.NameError "timedelta") :=
  rateLimitCheck_raises now w

/-- Claim C9: each data row has both fields whitespace-trimmed; a row whose
trimmed email is empty or lacks an `@` is skipped without error and not
counted; the remaining rows become recipients in input row order.  This is
exactly: the parsed list equals the input rows, trimmed, filtered by the
email validity test, in order. -/
theorem claim9_parse_trim_filter_order (rows : List CsvRow) :
    parseRecipients rows =
      (rows.map fun row =>
          Recipient.mk (pyStrip row.email) (pyStrip row.firstName)).filter
        fun r => validRecipientEmail r.email := by
  induction rows with
  | nil => rfl
  | cons r rs ih =>
    simp only [parseRecipients, List.map_cons, List.filter_cons]
    cases h : validRecipientEmail (pyStrip r.email) with
    | true => simp [h, ih]
    | false => simp [h, ih]

/-- Claim C10: the shared hourly counter is incremented exactly on a send
that completes successfully; a rendering failure, a rejected send, or a
mid-send disconnect leaves it (and the window start) unchanged, so failed
attempts consume no quota slots. -/
theorem claim10_counter_increment_only_on_success (email : String)
    (o : SendOutcome) (st : LoopSt) :
    (stepState (loopIteration email o st)).window.count =
      st.window.count + (if isSuccess o then 1 else 0) ∧
    (stepState (loopIteration email o st)).window.start = st.window.start := by
  cases o <;> simp [loopIteration, stepState, isSuccess]

/-- Claim C7: for a recipient whose attempt ends in a per-recipient SMTP
rejection (`smtpError`, the code's `smtplib.SMTPException` handler) or a
rendering failure (`renderError`, the generic handler), the iteration
increments `failed_count` by one, appends exactly one failure row for that
recipient carrying the error detail, leaves `sent_count`, the rate window
and `connection_error` untouched, and falls through to the next recipient
(`StepRes.next`, not an abort). -/
theorem claim7_recipient_scoped_errors_continue (email d : String)
    (st : LoopSt) (o : SendOutcome)
    (h : o = SendOutcome.smtpError d ∨ o = SendOutcome.renderError d) :
    ∃ st2 evs, loopIteration email o st = StepRes.next st2 evs ∧
      st2.sent = st.sent ∧ st2.failed = st.failed + 1 ∧
      st2.window = st.window ∧ st2.connErr = st.connErr ∧
      evs.filter isFailureInsert = [Ev.dbFailure email d] := by
  rcases h with h | h <;> subst h <;>
    exact ⟨_, _, rfl, rfl, rfl, rfl, rfl, rfl⟩

theorem claim7_witness :
    ∃ st2 evs,
      loopIteration "a@b.com" (SendOutcome.smtpError "550 mailbox rejected")
          { sent := 3, failed := 1, window := RateWindow.mk 7 0, connErr := none } =
        StepRes.next st2 evs ∧
      st2.sent = 3 ∧ st2.failed = 1 + 1 ∧
      st2.window = RateWindow.mk 7 0 ∧ st2.connErr = none ∧
      evs.filter isFailureInsert = [Ev.dbFailure "a@b.com" "550 mailbox rejected"] :=
  claim7_recipient_scoped_errors_continue "a@b.com" "550 mailbox rejected"
    { sent := 3, failed := 1, window := RateWindow.mk 7 0, connErr := none }
    (SendOutcome.smtpError "550 mailbox rejected") (Or.inl rfl)

/-- The two-recipient run used to evaluate the mid-send disconnect
finalization: the first send succeeds, the second raises
`SMTPServerDisconnected`. -/
def c2Attempts : List (String × SendOutcome) :=
  [("first@example.com", SendOutcome.success),
   ("second@example.com", SendOutcome.disconnected)]

/-- Claim C2 (code bug): after k = 1 successful send out of n = 2
recipients the transport closes; the loop aborts with its counts
`sent_count = 1`, `failed_count = 1` and `connection_error` set — but the
`finally` block's `if connection_error:` branch (lines 443–446) overwrites
the counts, persisting `sent_count = 0` and `failed_count = 2 = total`, not
the loop's `sent = k`, `failed = n − k` that the spec requires.  (The
`elif` of lines 448–450, whose comment says the loop's counts are kept, is
unreachable.) -/
theorem claim2_disconnect_finalize_clobbers_counts :
    (runLoopBody c2Attempts
        { sent := 0, failed := 0, window := RateWindow.mk 0 0, connErr := none }).1.sent
        = 1 ∧
    (runLoopBody c2Attempts
        { sent := 0, failed := 0, window := RateWindow.mk 0 0, connErr := none }).1.failed
        = 1 ∧
    (runLoopBody c2Attempts
        { sent := 0, failed := 0, window := RateWindow.mk 0 0, connErr := none }).1.connErr
        = some midSendDisconnectDetail ∧
    loopFinalize (some midSendDisconnectDetail) 1 1 2 =
      [Ev.dbFinal midSendDisconnectDetail 0 2] :=
  ⟨rfl, rfl, rfl, rfl⟩

/-- A job whose CSV yields one valid recipient and whose SMTP login is
rejected (`SMTPAuthenticationError`). -/
def envAuthFail : Env :=
  { csv := CsvRead.ok ["FirstName", "Email"] [CsvRow.mk "a@b.com" "Al"],
    html := HtmlResult.ok,
    smtpSetup := Except.error PyExc.SMTPAuthenticationError,
    now := 0,
    window := RateWindow.mk 0 0,
    smtpBehavior := fun _ => SendOutcome.success }

/-- The same job, but the SMTP connection fails with a DNS lookup failure
(`socket.gaierror`). -/
def envDnsFail : Env :=
  { csv := CsvRead.ok ["FirstName", "Email"] [CsvRow.mk "a@b.com" "Al"],
    html := HtmlResult.ok,
    smtpSetup := Except.error (PyExc.GaiError "dns lookup failed"),
    now := 0,
    window := RateWindow.mk 0 0,
    smtpBehavior := fun _ => SendOutcome.success }

/-- Claim C6 (code bug): for an authentication failure the job does end
`Failed` with `failed_count = total = 1` and `sent_count = 0` and no send
attempted, as claimed.  But for a connect failure raised as
`socket.gaierror` (DNS failure) the matching `except` clause itself raises
`NameError('socket')`, `connection_error` is never set, and the job is
persisted with the fallback status and `failed_count = 0`, not the full
recipient total. -/
theorem claim6_setup_failure_counts :
    runJob envAuthFail =
      [Ev.dbStart "Running", Ev.dbTotal 1, Ev.readTemplate, Ev.connect,
       Ev.dbFinal "Failed: SMTP Authentication Error. Check email/password/app password." 0 1] ∧
    runJob envDnsFail =
      [Ev.dbStart "Running", Ev.dbTotal 1, Ev.readTemplate, Ev.connect,
       Ev.dbFinal "Failed: Unknown (No emails sent or failed)" 0 0] ∧
    dispatchSetup (PyExc.GaiError "dns lookup failed") =
      Except.error (PyExc.NameError "socket") :=
  ⟨rfl, rfl, rfl⟩

end BulkMailer

namespace BulkMailer

/-! ### Finalization facts shared by several claims -/

theorem finalizeJob_none_zero (n : Nat) :
    finalizeJob none 0 0 (n + 1) =
      ("Failed: Unknown (No emails sent or failed)", 0, 0) := by
  have h : ¬((0 : Nat) = n + 1) := by omega
  simp [finalizeJob, eq_false h, Nat.succ_pos]

theorem finalize_completed_iff (sent failed total : Nat) (h : 0 < total) :
    (finalizeJob none sent failed total).1 = "Completed" ↔
      failed = 0 ∧ sent = total := by
  simp only [finalizeJob]
  split_ifs with h1 h2 h3 h4 h5
  · exact iff_of_true rfl h1
  · exact iff_of_false (by decide) h1
  · exact iff_of_false (by decide) h1
  · exact iff_of_false (by decide) h1
  · exact absurd h5 (by omega)
  · exact iff_of_false (by decide) h1

theorem finalize_partial_iff (sent failed total : Nat) :
    (finalizeJob none sent failed total).1 = "Partial Failure" ↔
      0 < sent ∧ 0 < failed := by
  simp only [finalizeJob]
  split_ifs with h1 h2 h3 h4 h5
  · exact iff_of_false (by decide) (by omega)
  · exact iff_of_true rfl ⟨h2.2, h2.1⟩
  · exact iff_of_false (by decide) (by omega)
  · exact iff_of_false (by decide) (by omega)
  · exact iff_of_false (by decide) (fun hc => h2 ⟨hc.2, hc.1⟩)
  · exact iff_of_false (by decide) (fun hc => h2 ⟨hc.2, hc.1⟩)

theorem finalize_failed_iff (sent failed total : Nat) (h : 0 < total) :
    (finalizeJob none sent failed total).1 = "Failed: All emails" ↔
      sent = 0 ∧ failed = total := by
  simp only [finalizeJob]
  split_ifs with h1 h2 h3 h4 h5
  · exact iff_of_false (by decide) (by omega)
  · exact iff_of_false (by decide) (by omega)
  · exact iff_of_true rfl ⟨h3.2, h3.1⟩
  · exact iff_of_false (by decide) (by omega)
  · exact absurd h5 (by omega)
  · exact iff_of_false (by decide) (fun hc => h3 ⟨hc.2, hc.1⟩)

theorem finalize_label_cases (sent failed total : Nat) :
    (finalizeJob none sent failed total).1 ∈
      (["Completed", "Partial Failure", "Failed: All emails",
        "Failed: Unknown (No emails sent or failed)",
        "Completed (No recipients)",
        "Completed with errors (check counts)"] : List String) := by
  simp only [finalizeJob]
  split_ifs <;> simp

/-- Claim C5: for a job that reaches the finalization with no
`connection_error`, the status chain of lines 452–464 classifies exactly as
the spec says — `Completed` iff `failed = 0 ∧ sent = total`,
`Partial Failure` iff `sent > 0 ∧ failed > 0`, the all-failed `Failed`
label iff `sent = 0 ∧ failed = total` — the loop's counts are persisted
as-is, and for every combination of counts (and every `connection_error`)
exactly one final write with some terminal label happens. -/
theorem claim5_final_status_classification (sent failed total : Nat)
    (h : 0 < total) :
    ((finalizeJob none sent failed total).1 = "Completed" ↔
      failed = 0 ∧ sent = total) ∧
    ((finalizeJob none sent failed total).1 = "Partial Failure" ↔
      0 < sent ∧ 0 < failed) ∧
    ((finalizeJob none sent failed total).1 = "Failed: All emails" ↔
      sent = 0 ∧ failed = total) ∧
    (finalizeJob none sent failed total).2 = (sent, failed) ∧
    (∀ connErr : Option String,
      loopFinalize connErr sent failed total =
        [Ev.dbFinal (finalizeJob connErr sent failed total).1
          (finalizeJob connErr sent failed total).2.1
          (finalizeJob connErr sent failed total).2.2]) ∧
    (finalizeJob none sent failed total).1 ∈
      (["Completed", "Partial Failure", "Failed: All emails",
        "Failed: Unknown (No emails sent or failed)",
        "Completed (No recipients)",
        "Completed with errors (check counts)"] : List String) :=
  ⟨finalize_completed_iff sent failed total h,
   finalize_partial_iff sent failed total,
   finalize_failed_iff sent failed total h,
   rfl, fun _ => rfl, finalize_label_cases sent failed total⟩

theorem claim5_witness :
    0 < 2 ∧
    (((finalizeJob none 1 1 2).1 = "Completed" ↔ 1 = 0 ∧ 1 = 2) ∧
     ((finalizeJob none 1 1 2).1 = "Partial Failure" ↔ 0 < 1 ∧ 0 < 1) ∧
     ((finalizeJob none 1 1 2).1 = "Failed: All emails" ↔ 1 = 0 ∧ 1 = 2) ∧
     (finalizeJob none 1 1 2).2 = (1, 1) ∧
     (∀ connErr : Option String,
       loopFinalize connErr 1 1 2 =
         [Ev.dbFinal (finalizeJob connErr 1 1 2).1
           (finalizeJob connErr 1 1 2).2.1
           (finalizeJob connErr 1 1 2).2.2]) ∧
     (finalizeJob none 1 1 2).1 ∈
       (["Completed", "Partial Failure", "Failed: All emails",
         "Failed: Unknown (No emails sent or failed)",
         "Completed (No recipients)",
         "Completed with errors (check counts)"] : List String)) :=
  ⟨by decide, claim5_final_status_classification 1 1 2 (by decide)⟩

end BulkMailer

namespace BulkMailer

/-- Claim C8: a job whose recipient source parses to zero valid recipients
persists `total_emails = 0` and the no-recipients terminal status (the
source's literal is `Completed (No valid recipients found)`) and ends;
the template file is never opened and no SMTP connection is attempted. -/
theorem claim8_zero_recipients (env : Env) (fns : List String)
    (rows : List CsvRow) (h1 : env.csv = CsvRead.ok fns rows)
    (h2 : hasColumns fns = true) (h0 : parseRecipients rows = []) :
    runJob env =
      [Ev.dbStart "Running", Ev.dbTotal 0,
       Ev.dbStatusEnd "Completed (No valid recipients found)"] ∧
    hasTemplateRead (runJob env) = false ∧
    hasConnect (runJob env) = false := by
  have ht : runJob env =
      [Ev.dbStart "Running", Ev.dbTotal 0,
       Ev.dbStatusEnd "Completed (No valid recipients found)"] := by
    simp [runJob, h1, h2, h0]
  exact ⟨ht, by rw [ht]; rfl, by rw [ht]; rfl⟩

/-- A job whose single data row has an invalid email (no `@`), so the
parsed recipient list is empty. -/
def envZeroRecipients : Env :=
  { csv := CsvRead.ok ["FirstName", "Email"] [CsvRow.mk "notanemail" " Al "],
    html := HtmlResult.ok,
    smtpSetup := Except.ok (),
    now := 0,
    window := RateWindow.mk 0 0,
    smtpBehavior := fun _ => SendOutcome.success }

theorem claim8_witness :
    runJob envZeroRecipients =
      [Ev.dbStart "Running", Ev.dbTotal 0,
       Ev.dbStatusEnd "Completed (No valid recipients found)"] ∧
    hasTemplateRead (runJob envZeroRecipients) = false ∧
    hasConnect (runJob envZeroRecipients) = false :=
  claim8_zero_recipients envZeroRecipients ["FirstName", "Email"]
    [CsvRow.mk "notanemail" " Al "] rfl (by decide) (by decide)

/-- Claim C1: for every job whose parsed recipient list is non-empty and
whose SMTP connect and login succeed, the first iteration of the send loop
evaluates `current_hour_start_time + timedelta(hours=1)` with `timedelta`
unbound and raises `NameError`; that exception is then re-raised while the
`except socket.gaierror` clause is matched (because `socket` is also
unbound), so no `except` clause of the setup `try` runs, no email is ever
handed to `sendmail`, and the `finally` block persists the fallback
terminal status with `sent_count = 0` and `failed_count = 0`. -/
theorem claim1_unbound_names_kill_send_loop (env : Env) (fns : List String)
    (rows : List CsvRow) (h1 : env.csv = CsvRead.ok fns rows)
    (h2 : hasColumns fns = true) (h3 : parseRecipients rows ≠ [])
    (h4 : env.html = HtmlResult.ok) (h5 : env.smtpSetup = Except.ok ()) :
    rateLimitCheck env.now env.window =
      Except.error (PyExc.NameError "timedelta") ∧
    dispatchSetup (PyExc.NameError "timedelta") =
      Except.error (PyExc.NameError "socket") ∧
    runJob env =
      [Ev.dbStart "Running", Ev.dbTotal (parseRecipients rows).length,
       Ev.readTemplate, Ev.connect,
       Ev.dbFinal "Failed: Unknown (No emails sent or failed)" 0 0] ∧
    hasSend (runJob env) = false := by
  obtain ⟨r, rs, hp⟩ : ∃ r rs, parseRecipients rows = r :: rs := by
    cases hpc : parseRecipients rows with
    | nil => exact absurd hpc h3
    | cons a l => exact ⟨a, l, rfl⟩
  have ht : runJob env =
      [Ev.dbStart "Running", Ev.dbTotal (parseRecipients rows).length,
       Ev.readTemplate, Ev.connect,
       Ev.dbFinal "Failed: Unknown (No emails sent or failed)" 0 0] := by
    simp [runJob, h1, h2, h4, h5, hp, loopRunAndFinalize, sendLoop,
      rateLimitCheck_raises, dispatchSetup_nameError, loopFinalize,
      finalizeJob_none_zero]
  exact ⟨rateLimitCheck_raises env.now env.window,
    dispatchSetup_nameError "timedelta", ht, by rw [ht]; rfl⟩

/-- A job with one valid recipient, a readable template, and an SMTP server
that would accept connect, login and every send. -/
def envLoopReached : Env :=
  { csv := CsvRead.ok ["FirstName", "Email"] [CsvRow.mk " a@b.com " " Al "],
    html := HtmlResult.ok,
    smtpSetup := Except.ok (),
    now := 0,
    window := RateWindow.mk 0 0,
    smtpBehavior := fun _ => SendOutcome.success }

theorem claim1_witness :
    rateLimitCheck envLoopReached.now envLoopReached.window =
      Except.error (PyExc.NameError "timedelta") ∧
    dispatchSetup (PyExc.NameError "timedelta") =
      Except.error (PyExc.NameError "socket") ∧
    runJob envLoopReached =
      [Ev.dbStart "Running",
       Ev.dbTotal (parseRecipients [CsvRow.mk " a@b.com " " Al "]).length,
       Ev.readTemplate, Ev.connect,
       Ev.dbFinal "Failed: Unknown (No emails sent or failed)" 0 0] ∧
    hasSend (runJob envLoopReached) = false :=
  claim1_unbound_names_kill_send_loop envLoopReached ["FirstName", "Email"]
    [CsvRow.mk " a@b.com " " Al "] rfl (by decide) (by decide) rfl rfl

/-- Claim C3: over the whole trace of database writes any job run performs,
the persisted `sent_count` / `failed_count` pair never decreases, starting
from the schema defaults `(0, 0)`. -/
theorem claim3_persisted_counts_monotone (env : Env) :
    countsMonotone (0, 0) (runJob env) := by
  cases hcsv : env.csv with
  | fileNotFound => simp [runJob, hcsv, countsMonotone, applyEv]
  | readError en ed => simp [runJob, hcsv, countsMonotone, applyEv]
  | ok fns rows =>
    cases h2 : hasColumns fns with
    | false => simp [runJob, hcsv, h2, countsMonotone, applyEv]
    | true =>
      cases hp : parseRecipients rows with
      | nil => simp [runJob, hcsv, h2, hp, countsMonotone, applyEv]
      | cons r rs =>
        cases hhtml : env.html with
        | fileNotFound =>
          simp [runJob, hcsv, h2, hp, hhtml, countsMonotone, applyEv]
        | readError en ed =>
          simp [runJob, hcsv, h2, hp, hhtml, countsMonotone, applyEv]
        | ok =>
          cases hsetup : env.smtpSetup with
          | error e =>
            cases hde : dispatchSetup e with
            | ok ce =>
              simp [runJob, hcsv, h2, hp, hhtml, hsetup, hde,
                countsMonotone, applyEv, loopFinalize, finalizeJob,
                Nat.zero_le]
            | error e2 =>
              simp [runJob, hcsv, h2, hp, hhtml, hsetup, hde,
                countsMonotone, applyEv, loopFinalize, finalizeJob,
                Nat.zero_le]
          | ok u =>
            simp [runJob, hcsv, h2, hp, hhtml, hsetup, loopRunAndFinalize,
              sendLoop, rateLimitCheck_raises, dispatchSetup_nameError,
              loopFinalize, finalizeJob_none_zero, countsMonotone, applyEv]

end BulkMailer
